import Mathlib

/-!
Verification of the authorization subsystem of systemd-mcp.

The development shallowly embeds the Go sources:
* `remoteauth` package (`oauth2.go`): OAuth2 bearer-token verification and
  capability derivation for Remote mode;
* `dbus` package (`dbus.go`): the `AuthKeeper` local authorization bridge
  backed by polkit (`CheckAuthorization`) over the system bus;
* the `--noauth` branch of `main` (`systemd-mcp.go`).

External effects (HTTP fetches, D-Bus calls to polkit/logind, the process
euid, context deadlines) are modelled by explicit environment records, and
every state-passing function additionally returns the list of
`CheckAuthorization` policy-engine calls it performed, so that theorems can
speak about which policy checks happen and in which order.
-/

namespace Remoteauth

/-- `var Audience = "systemd-mcp-server"` in oauth2.go. -/
def Audience : String := "systemd-mcp-server"

/-- `ScopesSupported = []string{"mcp:read", "mcp:write"}` in oauth2.go. -/
def ScopesSupported : List String := ["mcp:read", "mcp:write"]

/-- The `auth.TokenInfo` value built by `VerifyJWT` and attached to the call
context.  `Scopes` is the space-split scope claim; `rolesExtra` models
`Extra["roles"]`: `some rs` when the `Extra` map carries a `[]string` under
the key `"roles"` (a `nil` slice is the empty list), `none` when the key is
absent or of another dynamic type. -/
structure TokenInfo where
  scopes : List String
  expiration : Int
  rolesExtra : Option (List String)
deriving Repr, DecidableEq

/-- Errors returned by the remote capability checks, one constructor per
`fmt.Errorf` site in oauth2.go. -/
inductive RemoteAuthError where
  /-- `"no token info in context"` -/
  | noTokenInfo : RemoteAuthError
  /-- `"write unauthorized (mcp:write=%v, mcp-admin=%v)"` carrying the two
  booleans that the format verbs render. -/
  | writeUnauthorized (hasWriteScope : Bool) (hasAdminRole : Bool) : RemoteAuthError
  /-- `"mcp:read not in scopes: %v"` carrying the scope list. -/
  | readScopeMissing (scopes : List String) : RemoteAuthError
deriving Repr, DecidableEq

/-- Render a `Bool` the way Go's `%v` verb does. -/
def goBool (b : Bool) : String := if b then "true" else "false"

/-- Render a `[]string` the way Go's `%v` verb does. -/
def goStringSlice (xs : List String) : String :=
  "[" ++ String.intercalate " " xs ++ "]"

/-- The error message text produced by each `fmt.Errorf` call site. -/
def RemoteAuthError.message : RemoteAuthError → String
  | .noTokenInfo => "no token info in context"
  | .writeUnauthorized w r =>
      "write unauthorized (mcp:write=" ++ goBool w ++ ", mcp-admin=" ++ goBool r ++ ")"
  | .readScopeMissing scopes => "mcp:read not in scopes: " ++ goStringSlice scopes

/-- `Oauth2Auth.IsWriteAuthorized` (oauth2.go): requires the token info in the
context; grants iff the scope set holds `"mcp:write"` and `Extra["roles"]`
type-asserts to `[]string` and holds `"mcp-admin"`.  The argument is the
`auth.TokenInfo` found in the context (`none` when absent). -/
def IsWriteAuthorized (ti : Option TokenInfo) : Bool × Option RemoteAuthError :=
  match ti with
  | none => (false, some .noTokenInfo)
  | some ti =>
    let hasWriteScope := ti.scopes.contains "mcp:write"
    let hasAdminRole :=
      match ti.rolesExtra with
      | some roles => roles.contains "mcp-admin"
      | none => false
    if hasWriteScope && hasAdminRole then (true, none)
    else (false, some (.writeUnauthorized hasWriteScope hasAdminRole))

/-- `Oauth2Auth.IsReadAuthorized` (oauth2.go): requires the token info in the
context; grants iff the scope set holds `"mcp:read"`. -/
def IsReadAuthorized (ti : Option TokenInfo) : Bool × Option RemoteAuthError :=
  match ti with
  | none => (false, some .noTokenInfo)
  | some ti =>
    if ti.scopes.contains "mcp:read" then (true, none)
    else (false, some (.readScopeMissing ti.scopes))

end Remoteauth

namespace DbusPkg

/-- Outcome of one `org.freedesktop.PolicyKit1.Authority.CheckAuthorization`
D-Bus call: either the call returned a result with its `IsAuthorized` bit, or
the call itself failed (transport error). -/
inductive PolicyReply where
  | ok (isAuthorized : Bool)
  | callError (msg : String)
deriving Repr, DecidableEq

/-- The `AuthKeeper` struct of dbus.go (the embedded `*dbus.Conn` handle is
part of the environment, not the state). -/
structure AuthKeeper where
  sender : String
  Timeout : Nat
  ReadAlwaysAllowed : Bool
  WriteAlwaysAllowed : Bool
  ReadAllowed : Bool
  WriteAllowed : Bool
  DbusName : String
  DbusPath : String
deriving Repr, DecidableEq

/-- Environment for one authorization call: the process euid, the result the
`IsLocal` session-locality probe would report, the reply of the
`GetNameOwner` self-lookup, the policy engine's reply per (subject sender,
actionID), and whether the `a.Timeout`-second context deadline has expired
by the time the final `select` runs. -/
structure DbusEnv where
  euid : Nat
  isLocal : Bool
  nameOwner : Except String String
  policy : String → String → PolicyReply
  ctxDone : Bool

/-- The `*dbus.Error` values produced by `checkDbusAuth`. -/
inductive DbusError where
  /-- `org.opensuse.systemdmcp.Error.AuthError` with transport detail. -/
  | authError (msg : String)
  /-- `org.freedesktop.DBus.Error.AccessDenied`. -/
  | accessDenied
deriving Repr, DecidableEq

/-- `godbus`'s `Error.Error()` returns the first body string. -/
def DbusError.message : DbusError → String
  | .authError m => "Error checking authorization: " ++ m
  | .accessDenied => "Authorization denied."

/-- `AuthKeeper.checkDbusAuth` (dbus.go:64-111): root short-circuits to
authorized before any engine contact; otherwise one `CheckAuthorization`
call is made (recorded in the returned trace as (sender, actionID)) and a
transport failure or a denial is turned into a `*dbus.Error`. -/
def checkDbusAuth (env : DbusEnv) (sender actionID : String) :
    (Bool × Option DbusError) × List (String × String) :=
  if env.euid = 0 then ((true, none), [])
  else
    match env.policy sender actionID with
    | .callError m => ((false, some (.authError m)), [(sender, actionID)])
    | .ok b =>
      if b then ((true, none), [(sender, actionID)])
      else ((false, some .accessDenied), [(sender, actionID)])

/-- `AuthKeeper.AuthRead` (dbus.go:114-120): polkit-check the calling peer
against the fixed `<DbusName>.AuthRead` action; on success record the peer
as the new sender. -/
def AuthKeeper.AuthRead (a : AuthKeeper) (env : DbusEnv) (sender : String) :
    AuthKeeper × Option DbusError × List (String × String) :=
  match checkDbusAuth env sender (a.DbusName ++ ".AuthRead") with
  | ((_, none), tr) => ({ a with sender := sender }, none, tr)
  | ((_, some e), tr) => (a, some e, tr)

/-- `AuthKeeper.AuthWrite` (dbus.go:123-129): same as `AuthRead` with the
`<DbusName>.AuthWrite` action. -/
def AuthKeeper.AuthWrite (a : AuthKeeper) (env : DbusEnv) (sender : String) :
    AuthKeeper × Option DbusError × List (String × String) :=
  match checkDbusAuth env sender (a.DbusName ++ ".AuthWrite") with
  | ((_, none), tr) => ({ a with sender := sender }, none, tr)
  | ((_, some e), tr) => (a, some e, tr)

/-- `AuthKeeper.AuthRegister` (dbus.go:132-135): unconditionally record the
peer, no policy check, always succeed. -/
def AuthKeeper.AuthRegister (a : AuthKeeper) (sender : String) :
    AuthKeeper × Option DbusError × List (String × String) :=
  ({ a with sender := sender }, none, [])

/-- `AuthKeeper.Deauthorize` (dbus.go:237-272): the whole revocation body is
commented out in the source; the method returns `nil` leaving the receiver
untouched and contacting no policy engine. -/
def AuthKeeper.Deauthorize (a : AuthKeeper) :
    Option DbusError × AuthKeeper × List (String × String) :=
  (none, a, [])

/-- The `error` values returned by `IsReadAuthorized` / `IsWriteAuthorized`,
one constructor per `fmt.Errorf` site. -/
inductive GoError where
  /-- `"could not get unique name for self: %w"` -/
  | nameOwnerErr (msg : String)
  /-- `"read to systemd must authorized externally"` -/
  | sessionNotLocalRead
  /-- `"write to systemd must authorized externally"` -/
  | sessionNotLocalWrite
  /-- `"couldn't get read authorization: %s"` -/
  | readAuthFailed (e : DbusError)
  /-- `"authorization error: %s"` -/
  | writeAuthFailed (e : DbusError)
  /-- `"write authorization timed out: %w"` (the read path reuses the same
  wording, dbus.go:356). -/
  | authTimeout
deriving Repr, DecidableEq

/-- Message text of each returned error. -/
def GoError.message : GoError → String
  | .nameOwnerErr m => "could not get unique name for self: " ++ m
  | .sessionNotLocalRead => "read to systemd must authorized externally"
  | .sessionNotLocalWrite => "write to systemd must authorized externally"
  | .readAuthFailed e => "couldn't get read authorization: " ++ e.message
  | .writeAuthFailed e => "authorization error: " ++ e.message
  | .authTimeout => "write authorization timed out: context deadline exceeded"

/-- Tail of `IsReadAuthorized` (dbus.go:341-359): one `checkDbusAuth` against
the fixed `<DbusName>.AuthRead` action for the recorded sender, then the
timeout `select`. -/
def AuthKeeper.readCheckStep (a : AuthKeeper) (env : DbusEnv) :
    (Bool × Option GoError) × AuthKeeper × List (String × String) :=
  match checkDbusAuth env a.sender (a.DbusName ++ ".AuthRead") with
  | ((_, some e), tr) => ((false, some (.readAuthFailed e)), a, tr)
  | ((st, none), tr) =>
    if env.ctxDone then ((false, some .authTimeout), a, tr)
    else ((st, none), a, tr)

/-- `AuthKeeper.IsReadAuthorized` (dbus.go:324-360).  Returns the Go results,
the (possibly self-registered) new state, and the policy-call trace. -/
def AuthKeeper.IsReadAuthorized (a : AuthKeeper) (env : DbusEnv) :
    (Bool × Option GoError) × AuthKeeper × List (String × String) :=
  if a.ReadAllowed then ((true, none), a, [])
  else if a.sender = "" ∧ env.isLocal = true ∧ env.euid ≠ 0 then
    match env.nameOwner with
    | .error m => ((false, some (.nameOwnerErr m)), a, [])
    | .ok owner => AuthKeeper.readCheckStep { a with sender := owner } env
  else if env.isLocal = false then
    ((false, some .sessionNotLocalRead), a, [])
  else AuthKeeper.readCheckStep a env

/-- Tail of `IsWriteAuthorized` (dbus.go:380-399): first `checkDbusAuth`
against the fixed `<DbusName>.AuthWrite` action; on any `*dbus.Error` a
second check against the caller-supplied systemd permission (defaulted to
`org.freedesktop.systemd1.manage-units` when empty); then the timeout
`select`. -/
def AuthKeeper.writeCheckStep (a : AuthKeeper) (env : DbusEnv)
    (systemdPermission : String) :
    (Bool × Option GoError) × AuthKeeper × List (String × String) :=
  match checkDbusAuth env a.sender (a.DbusName ++ ".AuthWrite") with
  | ((st, none), tr) =>
    if env.ctxDone then ((false, some .authTimeout), a, tr)
    else ((st, none), a, tr)
  | ((_, some _), tr) =>
    match checkDbusAuth env a.sender
        (if systemdPermission = "" then "org.freedesktop.systemd1.manage-units"
         else systemdPermission) with
    | ((_, some e2), tr2) => ((false, some (.writeAuthFailed e2)), a, tr ++ tr2)
    | ((st2, none), tr2) =>
      if env.ctxDone then ((false, some .authTimeout), a, tr ++ tr2)
      else ((st2, none), a, tr ++ tr2)

/-- `AuthKeeper.IsWriteAuthorized` (dbus.go:364-401). -/
def AuthKeeper.IsWriteAuthorized (a : AuthKeeper) (env : DbusEnv)
    (systemdPermission : String) :
    (Bool × Option GoError) × AuthKeeper × List (String × String) :=
  if a.WriteAllowed then ((true, none), a, [])
  else if a.sender = "" ∧ env.isLocal = true ∧ env.euid ≠ 0 then
    match env.nameOwner with
    | .error m => ((false, some (.nameOwnerErr m)), a, [])
    | .ok owner => AuthKeeper.writeCheckStep { a with sender := owner } env systemdPermission
  else if env.isLocal = false then
    ((false, some .sessionNotLocalWrite), a, [])
  else AuthKeeper.writeCheckStep a env systemdPermission

/-- The keeper built by the `--noauth` branch of `main`
(systemd-mcp.go:139-154): a zero-valued `dbus.AuthKeeper{}` with
`ReadAllowed` and `WriteAllowed` forced to `true`, never connected to the
bus. -/
def noauthKeeper : AuthKeeper :=
  { sender := "", Timeout := 0, ReadAlwaysAllowed := false,
    WriteAlwaysAllowed := false, ReadAllowed := true, WriteAllowed := true,
    DbusName := "", DbusPath := "" }

end DbusPkg

namespace Remoteauth

/-- A bearer token as the verifier sees it after decoding: the header
algorithm, whether its signature validates against a key from the keyfunc's
key set, and its claims.  `aud` is the audience claim (modelled as the
single-string form), `exp` the expiration claim in unix seconds (`none` when
the claim is absent), `scope` the `"scope"` claim when it is a string, and
`realmRoles` the `realm_access.roles` entries when `realm_access` is a map
holding a list under `"roles"` (`some s` entries are strings, `none` entries
have another dynamic type). -/
structure JWTToken where
  alg : String
  signatureValid : Bool
  aud : Option String
  exp : Option Int
  scope : Option String
  realmRoles : Option (List (Option String))
deriving Repr, DecidableEq

/-- Validation performed by `jwt.ParseWithClaims` as configured in
`VerifyJWT` (oauth2.go:67-69): `jwt.WithValidMethods([]string{"RS256"})`
restricts the algorithm, the signature must validate against a key-set key,
`jwt.WithAudience(Audience)` makes the audience claim required and matched
exactly, and the `exp` claim is checked against the current time WHEN
PRESENT — the source does not pass `jwt.WithExpirationRequired()`, so
golang-jwt v5 accepts a token that has no `exp` claim at all. -/
def jwtParseValid (now : Int) (t : JWTToken) : Bool :=
  t.signatureValid &&
  ["RS256"].contains t.alg &&
  (match t.aud with
   | some a => a == Audience
   | none => false) &&
  (match t.exp with
   | some e => now ≤ e
   | none => true)

/-- Outcome of `Oauth2Auth.VerifyJWT`: a `TokenInfo`, an error return, or a
runtime panic. -/
inductive VerifyResult where
  | ok (ti : TokenInfo)
  | error
  | panics
deriving Repr, DecidableEq

/-- `strings.Split(s, " ")`, modelled on the character list (the separator
is the single space, matching the call site). -/
def splitSpace (s : String) : List String :=
  (s.data.splitOn ' ').map List.asString

/-- The role list `VerifyJWT` extracts: string entries of
`realm_access.roles`, non-string entries silently dropped; empty when the
nested structure is absent or of the wrong shape. -/
def extractRoles (t : JWTToken) : List String :=
  match t.realmRoles with
  | some entries => entries.filterMap id
  | none => []

/-- `Oauth2Auth.VerifyJWT` (oauth2.go:65-105).  A parse/validation failure
returns an error (wrapped `auth.ErrInvalidToken`).  On a valid token the
code calls `claims.GetExpirationTime()`, which for a missing `exp` claim
returns `(nil, nil)`, and then dereferences the resulting nil
`*jwt.NumericDate` in `expireTime.Time` — a panic, modelled by
`VerifyResult.panics`.  A non-string `scope` claim fails the type assertion
and returns an error; otherwise the scope string is space-split and the
roles are attached under `Extra["roles"]`. -/
def VerifyJWT (now : Int) (t : JWTToken) : VerifyResult :=
  if !jwtParseValid now t then .error
  else
    match t.exp with
    | none => .panics
    | some e =>
      match t.scope with
      | none => .error
      | some s =>
        .ok { scopes := splitSpace s, expiration := e,
              rolesExtra := some (extractRoles t) }

/-- The OpenID configuration document as `GetJwksURI` decodes it:
`none` models a fetch whose body is not valid JSON for the target struct,
`some u` a decoded document whose `jwks_uri` field is `u` (`none` when the
field is absent — Go leaves the zero value `""`). -/
inductive OpenIDFetch where
  /-- `http.Get` itself failed. -/
  | unreachable (msg : String)
  /-- A response with this status code and this body. -/
  | response (status : Nat) (body : Option (Option String))
deriving Repr, DecidableEq

/-- `GetJwksURI` (oauth2.go:41-63): transport failure and non-200 status are
errors; a decode failure is an error; otherwise the decoded `jwks_uri` field
is returned — the absent-field case decodes to the zero value `""` and is
returned with a nil error. -/
def GetJwksURI (resp : OpenIDFetch) : Except String String :=
  match resp with
  | .unreachable m => .error m
  | .response status body =>
    if status ≠ 200 then
      .error ("failed to get openid-configuration: " ++ toString status)
    else
      match body with
      | none => .error "json decode error"
      | some u => .ok (match u with | some s => s | none => "")

end Remoteauth

/-- C1: In Remote mode, for every verified token attached to the call
context, `IsReadAuthorized` grants iff the scope set holds `mcp:read`, and
`IsWriteAuthorized` grants iff the scope set holds `mcp:write` and the role
set holds the elevated role `mcp-admin`; for the token with scopes
`{mcp:read, mcp:write}` and empty role set, the write check returns
`(false, err)` with `err` rendering `mcp-admin=false` (naming the missing
role dimension) while the read check returns `(true, nil)`. -/
theorem C1_remote_capability_derivation :
    ∀ (scopes roles : List String) (exp : Int),
      ((Remoteauth.IsReadAuthorized
          (some ⟨scopes, exp, some roles⟩)).1 = true ↔ "mcp:read" ∈ scopes) ∧
      ((Remoteauth.IsWriteAuthorized
          (some ⟨scopes, exp, some roles⟩)).1 = true ↔
        ("mcp:write" ∈ scopes ∧ "mcp-admin" ∈ roles)) ∧
      (Remoteauth.IsWriteAuthorized
          (some ⟨["mcp:read", "mcp:write"], exp, some []⟩) =
        (false, some (.writeUnauthorized true false))) ∧
      ((Remoteauth.RemoteAuthError.writeUnauthorized true false).message =
        "write unauthorized (mcp:write=true, mcp-admin=false)") ∧
      (Remoteauth.IsReadAuthorized
          (some ⟨["mcp:read", "mcp:write"], exp, some []⟩) = (true, none)) := by
  intro scopes roles exp
  refine ⟨?_, ?_, ?_, ?_, ?_⟩
  · simp [Remoteauth.IsReadAuthorized]
    split <;> rename_i h <;> simp_all [List.elem_eq_mem, List.contains]
  · simp only [Remoteauth.IsWriteAuthorized]
    split <;> rename_i h <;> simp_all [List.elem_eq_mem, List.contains]
  · rfl
  · rfl
  · rfl

/-- C2: In Local mode, when no AuthorizingPeer is recorded (sender empty),
read is not pre-authorized at startup, and the session is not local,
`IsReadAuthorized` returns `(false, err)` with the distinct
`must be authorized externally` error, the state is unchanged, and the
policy-call trace is empty: no `CheckAuthorization` call is made. -/
theorem C2_nonlocal_unregistered_read_hard_stop
    (a : DbusPkg.AuthKeeper) (env : DbusPkg.DbusEnv)
    (hpre : a.ReadAllowed = false) (hsend : a.sender = "")
    (hloc : env.isLocal = false) :
    a.IsReadAuthorized env =
      ((false, some .sessionNotLocalRead), a, []) ∧
    DbusPkg.GoError.sessionNotLocalRead.message =
      "read to systemd must authorized externally" := by
  constructor
  · simp [DbusPkg.AuthKeeper.IsReadAuthorized, hpre, hsend, hloc]
  · rfl

/-- Witness for C2: a concrete non-pre-authorized keeper with empty sender in
a non-local session. -/
theorem C2_witness :
    DbusPkg.AuthKeeper.IsReadAuthorized
        ⟨"", 5, false, false, false, false,
          "org.opensuse.systemdmcp", "/org/opensuse/systemdmcp"⟩
        ⟨1000, false, Except.ok ":1.7", fun _ _ => .ok true, false⟩ =
      ((false, some .sessionNotLocalRead),
        ⟨"", 5, false, false, false, false,
          "org.opensuse.systemdmcp", "/org/opensuse/systemdmcp"⟩, []) ∧
    DbusPkg.GoError.sessionNotLocalRead.message =
      "read to systemd must authorized externally" :=
  C2_nonlocal_unregistered_read_hard_stop _ _ rfl rfl rfl

/-- A keeper started with `--allow-write`: write capability pre-authorized at
startup (`WriteAllowed = true`), dbus.go field layout. -/
def preauthorizedKeeper : DbusPkg.AuthKeeper :=
  ⟨"", 5, false, false, false, true,
    "org.opensuse.systemdmcp", "/org/opensuse/systemdmcp"⟩

/-- An environment whose policy engine denies everything: a re-invocation of
the engine could never grant. -/
def denyAllEnv : DbusPkg.DbusEnv :=
  ⟨1000, true, Except.ok ":1.9", fun _ _ => .ok false, false⟩

/-- C3 counterexample: `Deauthorize` (whose body is commented out in
dbus.go:237-272) does NOT clear the write-capability state.  On the keeper
pre-authorized for write, `Deauthorize` returns `nil` leaving the state
untouched (`WriteAllowed` still `true`), and the subsequent
`IsWriteAuthorized` returns the cached grant `(true, nil)` with an empty
policy-call trace — the policy engine (which here denies everything) is
never re-invoked, refuting the claimed clearing. -/
theorem C3_counterexample_deauthorize_clears_nothing :
    preauthorizedKeeper.Deauthorize = (none, preauthorizedKeeper, []) ∧
    (preauthorizedKeeper.Deauthorize).2.1.WriteAllowed = true ∧
    (preauthorizedKeeper.Deauthorize).2.1.IsWriteAuthorized denyAllEnv "" =
      ((true, none), preauthorizedKeeper, []) :=
  ⟨rfl, rfl, rfl⟩

/-- C3 amended: `Deauthorize` is a no-op.  It never raises an error (it
always returns `nil`), performs no revocation call to the policy engine, and
leaves the keeper state — including the write-capability flag — entirely
unchanged, so a subsequent `IsWriteAuthorized` behaves exactly as before the
call (it re-invokes the policy engine precisely when it would have anyway,
since per-call grants are never cached in state). -/
theorem C3_amended_deauthorize_is_noop (a : DbusPkg.AuthKeeper) :
    a.Deauthorize = (none, a, []) := rfl

/-- C7: registration always overwrites the single AuthorizingPeer field: a
successful `AuthRead(peer)`/`AuthWrite(peer)` records `peer` replacing any
previous sender, a failed one leaves the previous value unchanged, and
`AuthRegister(peer)` unconditionally records `peer` with no policy-engine
call (empty trace) and success for every caller. -/
theorem C7_single_peer_registration_overwrites
    (a : DbusPkg.AuthKeeper) (env : DbusPkg.DbusEnv) (peer : String) :
    ((a.AuthRead env peer).1 =
      if (a.AuthRead env peer).2.1 = none then { a with sender := peer } else a) ∧
    ((a.AuthWrite env peer).1 =
      if (a.AuthWrite env peer).2.1 = none then { a with sender := peer } else a) ∧
    a.AuthRegister peer = ({ a with sender := peer }, none, []) := by
  refine ⟨?_, ?_, rfl⟩
  · rcases h : DbusPkg.checkDbusAuth env peer (a.DbusName ++ ".AuthRead") with
      ⟨⟨b, oe⟩, tr⟩
    cases oe <;> simp [DbusPkg.AuthKeeper.AuthRead, h]
  · rcases h : DbusPkg.checkDbusAuth env peer (a.DbusName ++ ".AuthWrite") with
      ⟨⟨b, oe⟩, tr⟩
    cases oe <;> simp [DbusPkg.AuthKeeper.AuthWrite, h]

/-- C8: in Disabled (`--noauth`) mode — the keeper `main` builds with
`ReadAllowed = WriteAllowed = true` — every `IsReadAuthorized` and
`IsWriteAuthorized` call returns `(true, nil)` with unchanged state and an
empty policy-call trace, for every environment and permission override. -/
theorem C8_disabled_mode_always_authorized :
    ∀ (env : DbusPkg.DbusEnv) (p : String),
      DbusPkg.noauthKeeper.IsReadAuthorized env =
        ((true, none), DbusPkg.noauthKeeper, []) ∧
      DbusPkg.noauthKeeper.IsWriteAuthorized env p =
        ((true, none), DbusPkg.noauthKeeper, []) := by
  intro env p
  exact ⟨rfl, rfl⟩

/-- C9: with effective UID 0, `checkDbusAuth` grants without contacting the
policy engine (empty trace), so the bus-exposed `AuthRead(peer)` and
`AuthWrite(peer)` on a root daemon always succeed and record `peer` as the
new AuthorizingPeer with no `CheckAuthorization` call. -/
theorem C9_root_bypasses_policy_engine
    (a : DbusPkg.AuthKeeper) (env : DbusPkg.DbusEnv) (s act peer : String)
    (hroot : env.euid = 0) :
    DbusPkg.checkDbusAuth env s act = ((true, none), []) ∧
    a.AuthRead env peer = ({ a with sender := peer }, none, []) ∧
    a.AuthWrite env peer = ({ a with sender := peer }, none, []) := by
  refine ⟨?_, ?_, ?_⟩ <;>
    simp [DbusPkg.checkDbusAuth, DbusPkg.AuthKeeper.AuthRead,
      DbusPkg.AuthKeeper.AuthWrite, hroot]

/-- Witness for C9: a concrete root environment whose policy engine would
even be unreachable — authorization still succeeds with no engine call. -/
theorem C9_witness :
    DbusPkg.checkDbusAuth
        ⟨0, false, Except.error "no owner", fun _ _ => .callError "unreachable", false⟩
        ":1.55" "org.opensuse.systemdmcp.AuthWrite" = ((true, none), []) ∧
    DbusPkg.AuthKeeper.AuthRead
        ⟨"", 5, false, false, false, false,
          "org.opensuse.systemdmcp", "/org/opensuse/systemdmcp"⟩
        ⟨0, false, Except.error "no owner", fun _ _ => .callError "unreachable", false⟩
        ":1.55" =
      (⟨":1.55", 5, false, false, false, false,
          "org.opensuse.systemdmcp", "/org/opensuse/systemdmcp"⟩, none, []) ∧
    DbusPkg.AuthKeeper.AuthWrite
        ⟨"", 5, false, false, false, false,
          "org.opensuse.systemdmcp", "/org/opensuse/systemdmcp"⟩
        ⟨0, false, Except.error "no owner", fun _ _ => .callError "unreachable", false⟩
        ":1.55" =
      (⟨":1.55", 5, false, false, false, false,
          "org.opensuse.systemdmcp", "/org/opensuse/systemdmcp"⟩, none, []) :=
  C9_root_bypasses_policy_engine _ _ ":1.55" "org.opensuse.systemdmcp.AuthWrite" ":1.55" rfl

/-- C4: in Local mode, a write check that reaches policy-engine
re-validation (write not pre-authorized, a recorded sender, local session,
non-root, deadline not expired, non-empty caller-supplied permission) is an
ordered two-step fallback: the fixed `<DbusName>.AuthWrite` action is
checked first; exactly when that check does not grant, the caller-supplied
permission is checked second (visible in the call trace); the call is
authorized iff either check grants, and returns an error iff both fail. -/
theorem C4_write_ordered_fallback
    (a : DbusPkg.AuthKeeper) (env : DbusPkg.DbusEnv) (p : String)
    (hpre : a.WriteAllowed = false) (hsend : a.sender ≠ "")
    (hloc : env.isLocal = true) (hroot : env.euid ≠ 0)
    (hctx : env.ctxDone = false) (hp : p ≠ "") :
    ((a.IsWriteAuthorized env p).1.1 = true ↔
      (env.policy a.sender (a.DbusName ++ ".AuthWrite") = .ok true ∨
        env.policy a.sender p = .ok true)) ∧
    ((a.IsWriteAuthorized env p).1.2 = none ↔
      (env.policy a.sender (a.DbusName ++ ".AuthWrite") = .ok true ∨
        env.policy a.sender p = .ok true)) ∧
    ((a.IsWriteAuthorized env p).2.2 =
      if env.policy a.sender (a.DbusName ++ ".AuthWrite") = .ok true then
        [(a.sender, a.DbusName ++ ".AuthWrite")]
      else
        [(a.sender, a.DbusName ++ ".AuthWrite"), (a.sender, p)]) := by
  have hstep : a.IsWriteAuthorized env p = a.writeCheckStep env p := by
    simp [DbusPkg.AuthKeeper.IsWriteAuthorized, hpre, hsend, hloc]
  rw [hstep]
  unfold DbusPkg.AuthKeeper.writeCheckStep
  rcases hfirst : env.policy a.sender (a.DbusName ++ ".AuthWrite") with b | m
  · cases b
    · rcases hsecond : env.policy a.sender p with b2 | m2
      · cases b2 <;>
          simp [DbusPkg.checkDbusAuth, hroot, hfirst, hsecond, hctx, hp]
      · simp [DbusPkg.checkDbusAuth, hroot, hfirst, hsecond, hctx, hp]
    · simp [DbusPkg.checkDbusAuth, hroot, hfirst, hctx]
  · rcases hsecond : env.policy a.sender p with b2 | m2
    · cases b2 <;>
        simp [DbusPkg.checkDbusAuth, hroot, hfirst, hsecond, hctx, hp]
    · simp [DbusPkg.checkDbusAuth, hroot, hfirst, hsecond, hctx, hp]

/-- Keeper with a recorded AuthorizingPeer and no pre-authorized write, for
the C4 witness. -/
def writeFallbackKeeper : DbusPkg.AuthKeeper :=
  ⟨":1.20", 5, false, false, false, false,
    "org.opensuse.systemdmcp", "/org/opensuse/systemdmcp"⟩

/-- Environment whose policy engine denies the custom `AuthWrite` action but
grants everything else (in particular the systemd permission), for the C4
witness. -/
def denyCustomActionEnv : DbusPkg.DbusEnv :=
  ⟨1000, true, Except.ok ":1.20",
    fun _ act =>
      if act = "org.opensuse.systemdmcp.AuthWrite" then .ok false else .ok true,
    false⟩

/-- Witness for C4: the custom action is denied, the caller-supplied
`manage-unit-files` permission is granted, so the call succeeds and the
trace shows both checks in order. -/
theorem C4_witness :
    ((writeFallbackKeeper.IsWriteAuthorized denyCustomActionEnv
        "org.freedesktop.systemd1.manage-unit-files").1.1 = true ↔
      (denyCustomActionEnv.policy writeFallbackKeeper.sender
          (writeFallbackKeeper.DbusName ++ ".AuthWrite") = .ok true ∨
        denyCustomActionEnv.policy writeFallbackKeeper.sender
          "org.freedesktop.systemd1.manage-unit-files" = .ok true)) ∧
    ((writeFallbackKeeper.IsWriteAuthorized denyCustomActionEnv
        "org.freedesktop.systemd1.manage-unit-files").1.2 = none ↔
      (denyCustomActionEnv.policy writeFallbackKeeper.sender
          (writeFallbackKeeper.DbusName ++ ".AuthWrite") = .ok true ∨
        denyCustomActionEnv.policy writeFallbackKeeper.sender
          "org.freedesktop.systemd1.manage-unit-files" = .ok true)) ∧
    ((writeFallbackKeeper.IsWriteAuthorized denyCustomActionEnv
        "org.freedesktop.systemd1.manage-unit-files").2.2 =
      if denyCustomActionEnv.policy writeFallbackKeeper.sender
          (writeFallbackKeeper.DbusName ++ ".AuthWrite") = .ok true then
        [(writeFallbackKeeper.sender, writeFallbackKeeper.DbusName ++ ".AuthWrite")]
      else
        [(writeFallbackKeeper.sender, writeFallbackKeeper.DbusName ++ ".AuthWrite"),
          (writeFallbackKeeper.sender, "org.freedesktop.systemd1.manage-unit-files")]) :=
  C4_write_ordered_fallback writeFallbackKeeper denyCustomActionEnv
    "org.freedesktop.systemd1.manage-unit-files"
    rfl (by decide) rfl (by decide) rfl (by decide)

/-- `readCheckStep` never touches the keeper state. -/
theorem readCheckStep_keeper_eq (a : DbusPkg.AuthKeeper) (env : DbusPkg.DbusEnv) :
    (a.readCheckStep env).2.1 = a := by
  unfold DbusPkg.AuthKeeper.readCheckStep
  rcases h : DbusPkg.checkDbusAuth env a.sender (a.DbusName ++ ".AuthRead") with
    ⟨⟨b, oe⟩, tr⟩
  cases oe
  · simp [h]
    split <;> rfl
  · simp [h]

/-- `writeCheckStep` never touches the keeper state. -/
theorem writeCheckStep_keeper_eq (a : DbusPkg.AuthKeeper) (env : DbusPkg.DbusEnv)
    (p : String) :
    (a.writeCheckStep env p).2.1 = a := by
  unfold DbusPkg.AuthKeeper.writeCheckStep
  rcases h : DbusPkg.checkDbusAuth env a.sender (a.DbusName ++ ".AuthWrite") with
    ⟨⟨b, oe⟩, tr⟩
  cases oe
  · simp [h]
    split <;> rfl
  · simp [h]
    rcases h2 : DbusPkg.checkDbusAuth env a.sender
        (if p = "" then "org.freedesktop.systemd1.manage-units" else p) with
      ⟨⟨b2, oe2⟩, tr2⟩
    cases oe2
    · simp
      split <;> rfl
    · simp

/-- C10: the authorization checks are frame-preserving: the returned keeper
differs from the input at most in the `sender` field, and the sender differs
only in the self-registration case (it was empty, the session is local, and
the process is not root).  `ReadAllowed`, `WriteAllowed` and `Timeout` are
never touched, so a per-call policy grant is never cached in state. -/
theorem C10_checks_modify_only_sender
    (a : DbusPkg.AuthKeeper) (env : DbusPkg.DbusEnv) (p : String) :
    ((a.IsReadAuthorized env).2.1 =
      { a with sender := (a.IsReadAuthorized env).2.1.sender }) ∧
    ((a.IsReadAuthorized env).2.1.sender = a.sender ∨
      (a.sender = "" ∧ env.isLocal = true ∧ env.euid ≠ 0)) ∧
    ((a.IsWriteAuthorized env p).2.1 =
      { a with sender := (a.IsWriteAuthorized env p).2.1.sender }) ∧
    ((a.IsWriteAuthorized env p).2.1.sender = a.sender ∨
      (a.sender = "" ∧ env.isLocal = true ∧ env.euid ≠ 0)) := by
  refine ⟨?_, ?_, ?_, ?_⟩
  · unfold DbusPkg.AuthKeeper.IsReadAuthorized
    split_ifs with h1 h2 h3
    · rfl
    · cases env.nameOwner with
      | error m => rfl
      | ok owner => rw [readCheckStep_keeper_eq]
    · rfl
    · rw [readCheckStep_keeper_eq]
  · unfold DbusPkg.AuthKeeper.IsReadAuthorized
    split_ifs with h1 h2 h3
    · exact Or.inl rfl
    · cases env.nameOwner with
      | error m => exact Or.inl rfl
      | ok owner => exact Or.inr h2
    · exact Or.inl rfl
    · rw [readCheckStep_keeper_eq]
      exact Or.inl rfl
  · unfold DbusPkg.AuthKeeper.IsWriteAuthorized
    split_ifs with h1 h2 h3
    · rfl
    · cases env.nameOwner with
      | error m => rfl
      | ok owner => rw [writeCheckStep_keeper_eq]
    · rfl
    · rw [writeCheckStep_keeper_eq]
  · unfold DbusPkg.AuthKeeper.IsWriteAuthorized
    split_ifs with h1 h2 h3
    · exact Or.inl rfl
    · cases env.nameOwner with
      | error m => exact Or.inl rfl
      | ok owner => exact Or.inr h2
    · exact Or.inl rfl
    · rw [writeCheckStep_keeper_eq]
      exact Or.inl rfl

/-- A token that passes every configured check at time 1000: RS256, valid
signature, exact audience, unexpired `exp`, string scope claim, admin role. -/
def wellFormedToken : Remoteauth.JWTToken :=
  ⟨"RS256", true, some "systemd-mcp-server", some 2000,
    some "mcp:read mcp:write", some [some "mcp-admin"]⟩

/-- C5 evaluation: a failed signature, a disallowed algorithm (HS256, even
with an otherwise-valid signature), a wrong audience, and an expired `exp`
each make `VerifyJWT` return an error with no `TokenInfo` — but a token
MISSING the `exp` claim is accepted by the configured library validation
(`jwt.WithExpirationRequired` is never passed, so `exp` is optional to
golang-jwt v5) and then `expireTime.Time` dereferences the nil
`*jwt.NumericDate` that `GetExpirationTime` returns for an absent claim:
the call panics instead of returning the error the claim requires. -/
theorem C5_verification_rejections_and_missing_exp_panic :
    Remoteauth.VerifyJWT 1000 { wellFormedToken with signatureValid := false } =
      .error ∧
    Remoteauth.VerifyJWT 1000 { wellFormedToken with alg := "HS256" } = .error ∧
    Remoteauth.VerifyJWT 1000 { wellFormedToken with aud := some "other-service" } =
      .error ∧
    Remoteauth.VerifyJWT 1000 { wellFormedToken with exp := some 500 } = .error ∧
    Remoteauth.VerifyJWT 1000 { wellFormedToken with exp := none } = .panics ∧
    Remoteauth.VerifyJWT 1000 wellFormedToken =
      .ok ⟨["mcp:read", "mcp:write"], 2000, some ["mcp-admin"]⟩ := by
  refine ⟨rfl, rfl, rfl, by decide, rfl, by decide⟩

/-- C6 counterexample: a reachable, status-200 openid-configuration document
that decodes but lacks the `jwks_uri` field makes `GetJwksURI` return
`("", nil)` — a successful empty result, not the structured error the claim
requires. -/
theorem C6_counterexample_missing_field_is_empty_success :
    Remoteauth.GetJwksURI (.response 200 (some none)) = .ok "" := rfl

/-- C6 amended: `GetJwksURI` returns a structured error when the well-known
document is unreachable, when the response status is not 200, and when the
body fails to decode; but a 200 document that decodes and merely lacks the
`jwks_uri` field yields the empty string with a nil error. -/
theorem C6_amended_jwks_uri_errors
    (m : String) (st : Nat) (b : Option (Option String)) (hst : st ≠ 200) :
    Remoteauth.GetJwksURI (.unreachable m) = .error m ∧
    Remoteauth.GetJwksURI (.response st b) =
      .error ("failed to get openid-configuration: " ++ toString st) ∧
    Remoteauth.GetJwksURI (.response 200 none) = .error "json decode error" ∧
    Remoteauth.GetJwksURI (.response 200 (some none)) = .ok "" := by
  refine ⟨rfl, ?_, rfl, rfl⟩
  simp [Remoteauth.GetJwksURI, hst]

/-- Witness for C6 amended: a 404 response. -/
theorem C6_amended_witness :
    Remoteauth.GetJwksURI (.unreachable "connection refused") =
      .error "connection refused" ∧
    Remoteauth.GetJwksURI (.response 404 (some (some "https://kc/jwks"))) =
      .error ("failed to get openid-configuration: " ++ toString 404) ∧
    Remoteauth.GetJwksURI (.response 200 none) = .error "json decode error" ∧
    Remoteauth.GetJwksURI (.response 200 (some none)) = .ok "" :=
  C6_amended_jwks_uri_errors "connection refused" 404
    (some (some "https://kc/jwks")) (by decide)
